import Mathlib

/-!
Verification of the valuation-refresh pipeline of the fund-eye-client
repository: a shallow embedding of the error classifier and retry executor
(`src/main/types.ts`, re-exported from the error-handler module), the
valuation computer (`valuation-calculator`), the update scheduler
(`src/main/services/update-scheduler.ts`) and the refresh orchestrator with
its bounded batch executor (`src/main/services/ipc-handler.ts`), together
with theorems settling the specification claims about them.

Numeric fund data (net values, percentage changes, prices) is modelled with
exact rationals; IEEE-754 rounding of JavaScript numbers is out of scope.
Asynchronous operations are modelled as pure functions of the attempt index
or of the fetched data, and wall-clock readings (`new Date()`) are passed in
as explicit parameters.
-/

namespace FundEye

/-- ASCII lowercase of a string, modelling JavaScript `toLowerCase` as used
on the error messages inspected by the classifier. -/
def lowerStr (s : String) : String := String.mk (s.data.map Char.toLower)

/-- Substring containment, modelling JavaScript `String.prototype.includes`. -/
def strContains (s pat : String) : Bool := decide (pat.data <:+: s.data)

/-- The `ErrorType` enum of `src/main/types.ts`. -/
inductive ErrorType where
  | network
  | parse
  | storage
  | notFound
  | unknown
  deriving DecidableEq

/-- The classification-relevant fields of the `AppError` class of
`src/main/types.ts`: message, error type and retryability flag. -/
structure AppError where
  message : String
  type : ErrorType
  retryable : Bool
  deriving DecidableEq

/-- The `NetworkError` subclass constructor: network type, retryable. -/
def NetworkError (message : String) : AppError := ⟨message, .network, true⟩

/-- The `ParseError` subclass constructor: parse type, not retryable. -/
def ParseError (message : String) : AppError := ⟨message, .parse, false⟩

/-- The `StorageError` subclass constructor: storage type, retryable. -/
def StorageError (message : String) : AppError := ⟨message, .storage, true⟩

/-- The `NotFoundError` subclass constructor: notFound type, not retryable. -/
def NotFoundError (message : String) : AppError := ⟨message, .notFound, false⟩

/-- An error reaching `normalizeError`: either an already-classified
`AppError` instance or a plain `Error` carrying only its message. -/
inductive RawError where
  | app (e : AppError)
  | plain (message : String)
  deriving DecidableEq

/-- The network-error condition of `ErrorHandler.normalizeError`, on the
lowercased message. -/
def isNetworkMsg (message : String) : Bool :=
  strContains message "network" || strContains message "timeout" ||
  strContains message "econnrefused" || strContains message "enotfound" ||
  strContains message "socket" || strContains message "fetch"

/-- The parse-error condition of `ErrorHandler.normalizeError`. -/
def isParseMsg (message : String) : Bool :=
  strContains message "parse" || strContains message "json" ||
  strContains message "syntax"

/-- The storage-error condition of `ErrorHandler.normalizeError`. -/
def isStorageMsg (message : String) : Bool :=
  strContains message "storage" || strContains message "file" ||
  strContains message "permission"

/-- The not-found condition of `ErrorHandler.normalizeError`; the second
pattern is the localized equivalent of "not found". -/
def isNotFoundMsg (message : String) : Bool :=
  strContains message "not found" || strContains message "未找到"

/-- Source `ErrorHandler.getNetworkErrorMessage`: a friendly message chosen by
inspecting the lowercased raw message. -/
def getNetworkErrorMessage (rawMessage : String) : String :=
  let message := lowerStr rawMessage
  if strContains message "timeout" then "网络连接超时，请检查网络状态"
  else if strContains message "econnrefused" then "无法连接到服务器，请稍后重试"
  else if strContains message "enotfound" then "无法解析服务器地址，请检查网络连接"
  else "网络连接异常，请检查网络状态"

/-- Source `ErrorHandler.normalizeError`: an `AppError` passes through unchanged;
otherwise the lowercased message is matched against the fixed substring
sets, in the order network, parse, storage, not-found, defaulting to an
unknown non-retryable error. -/
def normalizeError : RawError → AppError
  | .app e => e
  | .plain rawMsg =>
    let message := lowerStr rawMsg
    if isNetworkMsg message then NetworkError (getNetworkErrorMessage rawMsg)
    else if isParseMsg message then ParseError "数据解析失败"
    else if isStorageMsg message then StorageError "存储操作失败"
    else if isNotFoundMsg message then NotFoundError rawMsg
    else ⟨rawMsg, .unknown, false⟩

/-- The `RetryConfig` record of `src/main/types.ts`. -/
structure RetryConfig where
  maxRetries : Nat
  baseDelay : Nat
  maxDelay : Nat
  backoffMultiplier : Nat
  deriving DecidableEq

/-- Source `DEFAULT_RETRY_CONFIG` of `src/main/types.ts`. -/
def DEFAULT_RETRY_CONFIG : RetryConfig :=
  { maxRetries := 3, baseDelay := 1000, maxDelay := 10000, backoffMultiplier := 2 }

/-- Source `ErrorHandler.calculateDelay`: exponential backoff capped at
`maxDelay`. -/
def calculateDelay (config : RetryConfig) (retryCount : Nat) : Nat :=
  min (config.baseDelay * config.backoffMultiplier ^ (retryCount - 1)) config.maxDelay

/-- The wrapped terminal error built by `withRetry` when the retry budget is
exhausted: message `context 失败，已重试 maxRetries 次: message`, keeping
the classified type and marked non-retryable. -/
def wrappedRetryError (context : String) (maxRetries : Nat) (appError : AppError) : AppError :=
  ⟨context ++ " 失败，已重试 " ++ toString maxRetries ++ " 次: " ++ appError.message,
   appError.type, false⟩

/-- Observable outcome of one `withRetry` invocation: the final result, the
number of attempts made, the backoff delays slept (in order), and the
`(error, retryCount)` pairs appended to the error history by
`recordError`. -/
structure RetryOutcome (T : Type) where
  result : Except AppError T
  attempts : Nat
  delays : List Nat
  recorded : List (AppError × Nat)

/-- The `while retryCount <= maxRetries` loop of `ErrorHandler.withRetry`.
The operation is modelled as a pure function `fn` of the attempt index
(0-based, equal to the `retryCount` at which the attempt is made); `fuel` is
the number of loop iterations still permitted, maintained as
`maxRetries + 1 - retryCount`, so running out of fuel (`none`) corresponds
to the source's unreachable final `throw lastError` line. -/
def withRetryAux {T : Type} (config : RetryConfig) (fn : Nat → Except RawError T)
    (context : String) : Nat → Nat → Option (RetryOutcome T)
  | 0, _ => none
  | fuel + 1, retryCount =>
    match fn retryCount with
    | .ok t => some ⟨.ok t, retryCount + 1, [], []⟩
    | .error e =>
      let appError := normalizeError e
      if !appError.retryable then
        some ⟨.error appError, retryCount + 1, [], [(appError, retryCount)]⟩
      else if config.maxRetries < retryCount + 1 then
        some ⟨.error (wrappedRetryError context config.maxRetries appError),
              retryCount + 1, [], [(appError, retryCount)]⟩
      else
        let delay := calculateDelay config (retryCount + 1)
        match withRetryAux config fn context fuel (retryCount + 1) with
        | none => none
        | some o => some ⟨o.result, o.attempts, delay :: o.delays, o.recorded⟩

/-- Source `ErrorHandler.withRetry` on a pure model of the operation. -/
def withRetry {T : Type} (config : RetryConfig) (fn : Nat → Except RawError T)
    (context : String) : Option (RetryOutcome T) :=
  withRetryAux config fn context (config.maxRetries + 1) 0

/-- One constituent holding of a fund (`@shared/types`), with its portfolio
weight in percent (`ratioPct` embeds the source field `ratio`). -/
structure Holding where
  stockCode : String
  stockName : String
  ratioPct : ℚ
  change : ℚ
  price : ℚ
  deriving DecidableEq

/-- A real-time quote for one instrument (`@shared/types` `StockQuote`). -/
structure StockQuote where
  code : String
  name : String
  price : ℚ
  change : ℚ
  changeAmount : ℚ
  deriving DecidableEq

/-- A tracked fund (`@shared/types` `Fund`); `isRealValue` is optional in the
stored record, hence `Option Bool`. -/
structure Fund where
  code : String
  name : String
  netValue : ℚ
  netValueDate : String
  estimatedValue : ℚ
  estimatedChange : ℚ
  updateTime : String
  isRealValue : Option Bool
  holdings : List Holding
  deriving DecidableEq

/-- Fund detail as passed to the valuation calculator (`FundDetail`). -/
structure FundDetail where
  code : String
  name : String
  type : String
  netValue : ℚ
  netValueDate : String
  holdings : List Holding
  deriving DecidableEq

/-- Source `Valuation` result record of the valuation calculator. -/
structure Valuation where
  estimatedValue : ℚ
  estimatedChange : ℚ
  updateTime : String
  isComplete : Bool
  deriving DecidableEq

/-- Result record of `FundFetcher.getFundValuation` (the primary valuation
provider). -/
structure FundValuation where
  netValue : ℚ
  netValueDate : String
  estimatedValue : ℚ
  estimatedChange : ℚ
  updateTime : String
  isRealValue : Bool
  isTradingDay : Bool
  deriving DecidableEq

/-- Source `new Map(quotes.map(q => [q.code, q]))` / sequential `Map.set`: lookup
by code where a later entry with the same code overwrites an earlier one. -/
def buildQuoteMap (quotes : List StockQuote) : String → Option StockQuote :=
  quotes.foldl (fun m q => fun c => if c = q.code then some q else m c) (fun _ => none)

/-- Result record of `ValuationCalculator.calculateWeightedChange`. -/
structure WeightedChange where
  estimatedChange : ℚ
  isComplete : Bool
  deriving DecidableEq

/-- Source `ValuationCalculator.calculateWeightedChange`: walk the holdings,
accumulating `quote.change * (holding.ratio / 100)` and a matched count over
the holdings that have a quote in the map; complete iff every holding
matched and there is at least one holding. -/
def calculateWeightedChange (holdings : List Holding)
    (quoteMap : String → Option StockQuote) : WeightedChange :=
  let acc := holdings.foldl
    (fun acc h =>
      match quoteMap h.stockCode with
      | some quote => (acc.1 + quote.change * (h.ratioPct / 100), acc.2 + 1)
      | none => acc)
    ((0 : ℚ), (0 : Nat))
  ⟨acc.1, decide (acc.2 = holdings.length) && decide (0 < holdings.length)⟩

/-- Source `ValuationCalculator.calculateEstimatedValue`:
`netValue * (1 + estimatedChange / 100)`. -/
def calculateEstimatedValue (netValue estimatedChange : ℚ) : ℚ :=
  netValue * (1 + estimatedChange / 100)

/-- Source `ValuationCalculator.calculateValuation`; `now` stands for
`new Date().toISOString()`. -/
def calculateValuation (now : String) (fund : FundDetail)
    (quotes : List StockQuote) : Valuation :=
  let quoteMap := buildQuoteMap quotes
  let w := calculateWeightedChange fund.holdings quoteMap
  ⟨calculateEstimatedValue fund.netValue w.estimatedChange, w.estimatedChange,
   now, w.isComplete⟩

/-- Source `batchExecute` of `src/main/services/ipc-handler.ts`, with the per-item
asynchronous operation modelled as a pure function: process consecutive
chunks of `concurrency` items, concatenating the chunk results in order.
The positivity hypothesis reflects that the source loop (`i += concurrency`)
only terminates for a positive concurrency. -/
def batchExecute {T R : Type} (items : List T) (fn : T → R) (concurrency : Nat)
    (hc : 0 < concurrency) : List R :=
  if _h : items.length = 0 then []
  else (items.take concurrency).map fn ++
    batchExecute (items.drop concurrency) fn concurrency hc
termination_by items.length
decreasing_by
  simp only [List.length_drop]
  omega

/-- Source `MAX_CONCURRENT_REQUESTS` of `ipc-handler.ts`. -/
def MAX_CONCURRENT_REQUESTS : Nat := 5

/-- The deduplicating insertion of `Set.add` with JavaScript insertion
order: append a code unless already present. -/
def insertUnique (acc : List String) (code : String) : List String :=
  if code ∈ acc then acc else acc ++ [code]

/-- The `allStockCodes` collection step of `updateAllValuations`: the union
of all holdings' stock codes across the watchlist, deduplicated, in first
occurrence order (`Set` insertion order). -/
def collectStockCodes (watchlist : List Fund) : List String :=
  watchlist.foldl
    (fun acc fund => fund.holdings.foldl (fun acc2 h => insertUnique acc2 h.stockCode) acc) []

/-- The per-fund merge step inside `updateAllValuations`' `watchlist.map`:
update the holdings from the quote map when quotes exist, then prefer the
primary valuation, else fall back to the calculator when quotes exist, else
return the fund unchanged. -/
def mergeFund (quoteMap : String → Option StockQuote) (hasStockQuotes : Bool)
    (now : String) (fund : Fund) (fundValuation : Option FundValuation) : Fund :=
  let updatedHoldings :=
    if hasStockQuotes then
      fund.holdings.map (fun h =>
        match quoteMap h.stockCode with
        | some quote => { h with change := quote.change, price := quote.price }
        | none => h)
    else fund.holdings
  match fundValuation with
  | some v =>
    { fund with
      netValue := if v.isRealValue then v.netValue else fund.netValue
      netValueDate := if v.isRealValue then v.netValueDate else fund.netValueDate
      estimatedValue := v.estimatedValue
      estimatedChange := v.estimatedChange
      updateTime := v.updateTime
      isRealValue := some v.isRealValue
      holdings := updatedHoldings }
  | none =>
    if hasStockQuotes then
      let fundQuotes := fund.holdings.filterMap (fun h => quoteMap h.stockCode)
      let calculated := calculateValuation now
        ⟨fund.code, fund.name, "", fund.netValue, fund.netValueDate, fund.holdings⟩
        fundQuotes
      { fund with
        estimatedValue := calculated.estimatedValue
        estimatedChange := calculated.estimatedChange
        updateTime := calculated.updateTime
        isRealValue := some false
        holdings := updatedHoldings }
    else fund

/-- Observable outcome of one `IPCHandler.updateAllValuations` cycle: the
returned fund list, what was passed to `storage.saveWatchlist` (if
anything), and whether the quote-fetch step ran. -/
structure UpdateResult where
  returned : List Fund
  saved : Option (List Fund)
  quotesFetched : Bool

/-- Source `IPCHandler.updateAllValuations` on pure models of the collaborators:
`fetchValuation` stands for `fundFetcher.getFundValuation` (per fund code,
`none` on provider failure) and `fetchQuotes` for
`stockFetcher.getStockQuotes` (empty list on failure); `now` stands for the
cycle's clock readings. -/
def updateAllValuations (watchlist : List Fund)
    (fetchValuation : String → Option FundValuation)
    (fetchQuotes : List String → List StockQuote) (now : String) : UpdateResult :=
  if watchlist = [] then ⟨[], none, false⟩
  else
    let valuations := batchExecute watchlist (fun fund => fetchValuation fund.code)
      MAX_CONCURRENT_REQUESTS (by decide)
    let isTradingDay := valuations.any (fun v =>
      match v with
      | some fv => fv.isTradingDay
      | none => false)
    if isTradingDay then
      let allStockCodes := collectStockCodes watchlist
      let quotes := fetchQuotes allStockCodes
      let quoteMap := buildQuoteMap quotes
      let hasStockQuotes := decide (0 < quotes.length)
      let updatedFunds := List.zipWith
        (fun fund v => mergeFund quoteMap hasStockQuotes now fund v)
        watchlist valuations
      ⟨updatedFunds, some updatedFunds, true⟩
    else ⟨watchlist, none, false⟩

/-- Source `SchedulerConfig` of `update-scheduler.ts`. -/
structure SchedulerConfig where
  updateInterval : Nat
  maxRetries : Nat
  retryDelay : Nat
  deriving DecidableEq

/-- Source `DEFAULT_CONFIG` of `update-scheduler.ts`. -/
def DEFAULT_SCHEDULER_CONFIG : SchedulerConfig :=
  { updateInterval := 60000, maxRetries := 3, retryDelay := 2000 }

/-- Source `SchedulerStatus` of `update-scheduler.ts`. -/
structure SchedulerStatus where
  isRunning : Bool
  lastUpdateTime : Option String
  lastError : Option String
  consecutiveErrors : Nat
  deriving DecidableEq

/-- Externally visible effect of one scheduler step: arm a one-shot retry
timer, notify the renderer of a terminal error (`sendError`), or push the
updated funds to the renderer (`sendValuationUpdate`). -/
inductive SchedulerEffect where
  | scheduleRetry (delayMs : Nat)
  | sendError (msg : String)
  | sendValuationUpdate (funds : List Fund)
  deriving DecidableEq

/-- The terminal error message built in `handleUpdateError`. -/
def terminalErrorMessage (errorMessage : String) : String :=
  "网络连接异常，请检查网络后重试 (" ++ errorMessage ++ ")"

/-- Source `UpdateScheduler.handleUpdateError`: record the message, increment
`consecutiveErrors`; while still below `maxRetries` arm a one-shot retry
after `retryDelay`, otherwise notify the renderer of a terminal error. -/
def handleUpdateError (config : SchedulerConfig) (status : SchedulerStatus)
    (errorMessage : String) : SchedulerStatus × SchedulerEffect :=
  let status' := { status with
    lastError := some errorMessage
    consecutiveErrors := status.consecutiveErrors + 1 }
  if status'.consecutiveErrors < config.maxRetries then
    (status', .scheduleRetry config.retryDelay)
  else
    (status', .sendError (terminalErrorMessage errorMessage))

/-- The body of `UpdateScheduler.executeUpdate` after the market gate, on a
pure model of the cycle outcome: on success reset the error state, record
`lastUpdateTime := now` and push the funds; on failure defer to
`handleUpdateError`. -/
def executeUpdateStep (config : SchedulerConfig) (status : SchedulerStatus)
    (outcome : Except String (List Fund)) (now : String) :
    SchedulerStatus × SchedulerEffect :=
  match outcome with
  | .ok updatedFunds =>
    ({ status with
        lastUpdateTime := some now
        lastError := none
        consecutiveErrors := 0 },
     .sendValuationUpdate updatedFunds)
  | .error msg => handleUpdateError config status msg

/-- The auto-retry chain arising from consecutively failing cycles: apply
`handleUpdateError`; as long as it arms a retry timer, the retried cycle
fails again and the chain continues. `fuel` bounds the recursion. Returns
the final status and the effects emitted, in order. -/
def failureChain (config : SchedulerConfig) (errorMessage : String) :
    Nat → SchedulerStatus → SchedulerStatus × List SchedulerEffect
  | 0, status => (status, [])
  | fuel + 1, status =>
    match handleUpdateError config status errorMessage with
    | (status', .scheduleRetry d) =>
      let rest := failureChain config errorMessage fuel status'
      (rest.1, .scheduleRetry d :: rest.2)
    | (status', eff) => (status', [eff])

/-- Source `UpdateScheduler.isMarketOpen` as a function of the local day-of-week
(`getDay`: 0 = Sunday … 6 = Saturday), hours and minutes. -/
def isMarketOpen (day hours minutes : Nat) : Bool :=
  let time := hours * 60 + minutes
  if day = 0 || day = 6 then false
  else
    let morningStart := 9 * 60 + 30
    let morningEnd := 11 * 60 + 30
    let afternoonStart := 13 * 60
    let afternoonEnd := 15 * 60
    (decide (morningStart ≤ time) && decide (time ≤ morningEnd)) ||
    (decide (afternoonStart ≤ time) && decide (time ≤ afternoonEnd))

/-! ## Helper lemmas -/

/-- The weighted-change fold, related to a filterMap sum and a filter count,
for any initial accumulator. -/
theorem weightedFold_spec (holdings : List Holding)
    (quoteMap : String → Option StockQuote) (c : ℚ) (n : Nat) :
    holdings.foldl
      (fun acc h =>
        match quoteMap h.stockCode with
        | some quote => (acc.1 + quote.change * (h.ratioPct / 100), acc.2 + 1)
        | none => acc)
      (c, n)
    = (c + (holdings.filterMap (fun h => (quoteMap h.stockCode).map
          (fun q => q.change * (h.ratioPct / 100)))).sum,
       n + (holdings.filter (fun h => (quoteMap h.stockCode).isSome)).length) := by
  induction holdings generalizing c n with
  | nil => simp
  | cons h t ih =>
    cases hq : quoteMap h.stockCode with
    | none => simp [hq, ih]
    | some q =>
      simp only [List.foldl_cons, hq, ih, List.filterMap_cons, List.filter_cons,
        Option.map_some', Option.isSome_some, List.sum_cons, List.length_cons,
        if_true, Prod.mk.injEq]
      refine ⟨by ring, by omega⟩

/-- Chunked execution over a pure operation is the sequential map. -/
theorem batchExecute_as_map {T R : Type} (items : List T) (fn : T → R)
    (concurrency : Nat) (hc : 0 < concurrency) :
    batchExecute items fn concurrency hc = items.map fn := by
  rw [batchExecute]
  split
  · next h =>
    have h0 : items = [] := List.length_eq_zero.mp h
    simp [h0]
  · next h =>
    rw [batchExecute_as_map (items.drop concurrency) fn concurrency hc]
    rw [← List.map_append, List.take_append_drop]
termination_by items.length
decreasing_by
  simp only [List.length_drop]
  omega

/-! ## Claims -/

/-- C1: for every holdings list and quote map, `calculateWeightedChange`
returns as `estimatedChange` the sum over the holdings that have a matching
quote of `quote.change * (holding.ratio / 100)`, and `isComplete` is true
iff the matched count equals the number of holdings and that number is
positive; an empty holdings list yields change 0 and `isComplete = false`;
and `calculateEstimatedValue netValue c = netValue * (1 + c / 100)`. -/
theorem C1_valuation_computer :
    (∀ (holdings : List Holding) (quoteMap : String → Option StockQuote),
      (calculateWeightedChange holdings quoteMap).estimatedChange =
        (holdings.filterMap (fun h => (quoteMap h.stockCode).map
          (fun q => q.change * (h.ratioPct / 100)))).sum) ∧
    (∀ (holdings : List Holding) (quoteMap : String → Option StockQuote),
      ((calculateWeightedChange holdings quoteMap).isComplete = true ↔
        (holdings.filter (fun h => (quoteMap h.stockCode).isSome)).length
            = holdings.length ∧ 0 < holdings.length)) ∧
    (∀ quoteMap : String → Option StockQuote,
      calculateWeightedChange [] quoteMap = ⟨0, false⟩) ∧
    (∀ netValue estimatedChange : ℚ,
      calculateEstimatedValue netValue estimatedChange =
        netValue * (1 + estimatedChange / 100)) := by
  refine ⟨?_, ?_, ?_, ?_⟩
  · intro holdings quoteMap
    simp only [calculateWeightedChange, weightedFold_spec]
    exact zero_add _
  · intro holdings quoteMap
    simp only [calculateWeightedChange, weightedFold_spec]
    rw [Bool.and_eq_true, decide_eq_true_eq, decide_eq_true_eq, Nat.zero_add]
  · intro quoteMap
    rfl
  · intro netValue estimatedChange
    rfl

/-- C4: for every retry configuration and retry number `k ≥ 1`, the backoff
delay is `min (baseDelay * backoffMultiplier ^ (k - 1)) maxDelay`; for the
default configuration the successive delays are 1000, 2000, 4000, 8000 and
then capped at 10000. -/
theorem C4_backoff_delay :
    (∀ (config : RetryConfig) (k : Nat), 1 ≤ k →
      calculateDelay config k =
        min (config.baseDelay * config.backoffMultiplier ^ (k - 1)) config.maxDelay) ∧
    (calculateDelay DEFAULT_RETRY_CONFIG 1 = 1000 ∧
     calculateDelay DEFAULT_RETRY_CONFIG 2 = 2000 ∧
     calculateDelay DEFAULT_RETRY_CONFIG 3 = 4000 ∧
     calculateDelay DEFAULT_RETRY_CONFIG 4 = 8000 ∧
     calculateDelay DEFAULT_RETRY_CONFIG 5 = 10000) := by
  refine ⟨fun config k _ => rfl, by decide⟩

/-- Witness for C4 at `k = 1` on the default configuration. -/
theorem C4_backoff_delay_witness :
    1 ≤ 1 ∧ calculateDelay DEFAULT_RETRY_CONFIG 1 =
      min (DEFAULT_RETRY_CONFIG.baseDelay *
        DEFAULT_RETRY_CONFIG.backoffMultiplier ^ (1 - 1)) DEFAULT_RETRY_CONFIG.maxDelay :=
  ⟨by decide, C4_backoff_delay.1 DEFAULT_RETRY_CONFIG 1 (by decide)⟩

/-- C9: the market-hours gate is closed on Saturday (6) and Sunday (0) and
on weekdays is open exactly within 09:30–11:30 or 13:00–15:00, both windows
inclusive of both endpoints; with the spec's example times. -/
theorem C9_market_hours :
    (∀ day hours minutes : Nat,
      isMarketOpen day hours minutes = true ↔
        (day ≠ 0 ∧ day ≠ 6 ∧
          ((9 * 60 + 30 ≤ hours * 60 + minutes ∧ hours * 60 + minutes ≤ 11 * 60 + 30) ∨
           (13 * 60 ≤ hours * 60 + minutes ∧ hours * 60 + minutes ≤ 15 * 60)))) ∧
    (isMarketOpen 1 10 0 = true ∧ isMarketOpen 1 12 0 = false ∧
     isMarketOpen 6 10 0 = false ∧ isMarketOpen 0 10 0 = false ∧
     isMarketOpen 5 14 59 = true ∧ isMarketOpen 5 15 1 = false ∧
     isMarketOpen 1 9 30 = true ∧ isMarketOpen 1 11 30 = true ∧
     isMarketOpen 1 13 0 = true ∧ isMarketOpen 1 15 0 = true) := by
  refine ⟨?_, by decide⟩
  intro day hours minutes
  by_cases h0 : day = 0
  · simp [isMarketOpen, h0]
  · by_cases h6 : day = 6
    · simp [isMarketOpen, h6]
    · simp [isMarketOpen, h0, h6]

/-- C3: classification inspects the lowercased message and returns
network/retryable on the network substrings, parse/non-retryable on the
parse substrings, storage/retryable on the storage substrings,
notFound/non-retryable on "not found" or its localized equivalent, unknown
and non-retryable otherwise; an already-classified error passes through
unchanged (idempotence). -/
theorem C3_error_classifier :
    (∀ e : AppError, normalizeError (RawError.app e) = e) ∧
    (∀ m : String, isNetworkMsg (lowerStr m) = true →
      (normalizeError (RawError.plain m)).type = .network ∧
      (normalizeError (RawError.plain m)).retryable = true) ∧
    (∀ m : String, isNetworkMsg (lowerStr m) = false →
      isParseMsg (lowerStr m) = true →
      (normalizeError (RawError.plain m)).type = .parse ∧
      (normalizeError (RawError.plain m)).retryable = false) ∧
    (∀ m : String, isNetworkMsg (lowerStr m) = false →
      isParseMsg (lowerStr m) = false → isStorageMsg (lowerStr m) = true →
      (normalizeError (RawError.plain m)).type = .storage ∧
      (normalizeError (RawError.plain m)).retryable = true) ∧
    (∀ m : String, isNetworkMsg (lowerStr m) = false →
      isParseMsg (lowerStr m) = false → isStorageMsg (lowerStr m) = false →
      isNotFoundMsg (lowerStr m) = true →
      (normalizeError (RawError.plain m)).type = .notFound ∧
      (normalizeError (RawError.plain m)).retryable = false) ∧
    (∀ m : String, isNetworkMsg (lowerStr m) = false →
      isParseMsg (lowerStr m) = false → isStorageMsg (lowerStr m) = false →
      isNotFoundMsg (lowerStr m) = false →
      (normalizeError (RawError.plain m)).type = .unknown ∧
      (normalizeError (RawError.plain m)).retryable = false) := by
  refine ⟨fun e => rfl, ?_, ?_, ?_, ?_, ?_⟩
  · intro m h1
    simp [normalizeError, h1, NetworkError]
  · intro m h1 h2
    simp [normalizeError, h1, h2, ParseError]
  · intro m h1 h2 h3
    simp [normalizeError, h1, h2, h3, StorageError]
  · intro m h1 h2 h3 h4
    simp [normalizeError, h1, h2, h3, h4, NotFoundError]
  · intro m h1 h2 h3 h4
    simp [normalizeError, h1, h2, h3, h4]

/-- Witness for C3: one concrete message per classification category,
hypotheses discharged by evaluation. -/
theorem C3_error_classifier_witness :
    normalizeError (RawError.app ⟨"x", .parse, false⟩) = ⟨"x", .parse, false⟩ ∧
    ((normalizeError (RawError.plain "Connection TIMEOUT")).type = .network ∧
      (normalizeError (RawError.plain "Connection TIMEOUT")).retryable = true) ∧
    ((normalizeError (RawError.plain "bad JSON")).type = .parse ∧
      (normalizeError (RawError.plain "bad JSON")).retryable = false) ∧
    ((normalizeError (RawError.plain "file missing")).type = .storage ∧
      (normalizeError (RawError.plain "file missing")).retryable = true) ∧
    ((normalizeError (RawError.plain "fund not found")).type = .notFound ∧
      (normalizeError (RawError.plain "fund not found")).retryable = false) ∧
    ((normalizeError (RawError.plain "weird")).type = .unknown ∧
      (normalizeError (RawError.plain "weird")).retryable = false) :=
  ⟨C3_error_classifier.1 ⟨"x", .parse, false⟩,
   C3_error_classifier.2.1 "Connection TIMEOUT" (by decide),
   C3_error_classifier.2.2.1 "bad JSON" (by decide) (by decide),
   C3_error_classifier.2.2.2.1 "file missing" (by decide) (by decide) (by decide),
   C3_error_classifier.2.2.2.2.1 "fund not found" (by decide) (by decide) (by decide) (by decide),
   C3_error_classifier.2.2.2.2.2 "weird" (by decide) (by decide) (by decide) (by decide)⟩

/-- C10: the classifier applies the categories in the fixed order network,
parse, storage, not-found — a message matching an earlier category gets
that category no matter which later categories also match; in particular a
message containing both "fetch" and "json" is network-kind and
retryable. -/
theorem C10_classifier_priority :
    (∀ m : String, isNetworkMsg (lowerStr m) = true → isParseMsg (lowerStr m) = true →
      (normalizeError (RawError.plain m)).type = .network ∧
      (normalizeError (RawError.plain m)).retryable = true) ∧
    (∀ m : String, isNetworkMsg (lowerStr m) = false →
      isParseMsg (lowerStr m) = true → isStorageMsg (lowerStr m) = true →
      (normalizeError (RawError.plain m)).type = .parse ∧
      (normalizeError (RawError.plain m)).retryable = false) ∧
    (∀ m : String, isNetworkMsg (lowerStr m) = false →
      isParseMsg (lowerStr m) = false → isStorageMsg (lowerStr m) = true →
      isNotFoundMsg (lowerStr m) = true →
      (normalizeError (RawError.plain m)).type = .storage ∧
      (normalizeError (RawError.plain m)).retryable = true) ∧
    (strContains (lowerStr "fetch failed: invalid JSON") "fetch" = true ∧
     strContains (lowerStr "fetch failed: invalid JSON") "json" = true ∧
     (normalizeError (RawError.plain "fetch failed: invalid JSON")).type = .network ∧
     (normalizeError (RawError.plain "fetch failed: invalid JSON")).retryable = true) := by
  refine ⟨?_, ?_, ?_, by decide⟩
  · intro m h1 _
    simp [normalizeError, h1, NetworkError]
  · intro m h1 h2 _
    simp [normalizeError, h1, h2, ParseError]
  · intro m h1 h2 h3 _
    simp [normalizeError, h1, h2, h3, StorageError]

/-- Witness for C10: messages matching two categories at once, classified by
the earlier one. -/
theorem C10_classifier_priority_witness :
    ((normalizeError (RawError.plain "fetch json")).type = .network ∧
      (normalizeError (RawError.plain "fetch json")).retryable = true) ∧
    ((normalizeError (RawError.plain "json storage")).type = .parse ∧
      (normalizeError (RawError.plain "json storage")).retryable = false) ∧
    ((normalizeError (RawError.plain "storage not found")).type = .storage ∧
      (normalizeError (RawError.plain "storage not found")).retryable = true) :=
  ⟨C10_classifier_priority.1 "fetch json" (by decide) (by decide),
   C10_classifier_priority.2.1 "json storage" (by decide) (by decide) (by decide),
   C10_classifier_priority.2.2.1 "storage not found" (by decide) (by decide)
     (by decide) (by decide)⟩

/-- C8: for every item list, per-item operation and concurrency ceiling
at least 1, `batchExecute` equals the sequential map of the operation over
the items, and its result is index-aligned with the input. -/
theorem C8_batchExecute_aligned :
    ∀ (T R : Type) (items : List T) (fn : T → R) (concurrency : Nat)
      (hc : 0 < concurrency),
      batchExecute items fn concurrency hc = items.map fn ∧
      ∀ (i : Nat) (hi : i < items.length),
        (batchExecute items fn concurrency hc)[i]? = some (fn items[i]) := by
  intro T R items fn concurrency hc
  refine ⟨batchExecute_as_map items fn concurrency hc, ?_⟩
  intro i hi
  rw [batchExecute_as_map, List.getElem?_map, List.getElem?_eq_getElem hi,
    Option.map_some']

/-- Witness for C8: five items with concurrency 2 (the spec's example
shape), evaluated. -/
theorem C8_batchExecute_aligned_witness :
    batchExecute [10, 20, 30, 40, 50] (fun n => n + 1) 2 (by decide) =
      [11, 21, 31, 41, 51] ∧
    (batchExecute [10, 20, 30, 40, 50] (fun n => n + 1) 2 (by decide))[3]? =
      some 41 := by
  refine ⟨?_, ?_⟩
  · exact ((C8_batchExecute_aligned Nat Nat [10, 20, 30, 40, 50] (fun n => n + 1)
      2 (by decide)).1).trans (by decide)
  · exact ((C8_batchExecute_aligned Nat Nat [10, 20, 30, 40, 50] (fun n => n + 1)
      2 (by decide)).2 3 (by decide)).trans (by decide)

/-- C6: for a non-empty watchlist, if no fetched primary valuation carries
`isTradingDay` (in particular if every fetch failed), `updateAllValuations`
returns the watchlist unchanged, saves nothing and never reaches the
quote-fetch step. -/
theorem C6_skip_when_not_trading :
    ∀ (watchlist : List Fund) (fetchValuation : String → Option FundValuation)
      (fetchQuotes : List String → List StockQuote) (now : String),
      watchlist ≠ [] →
      (∀ fund ∈ watchlist, ∀ fv, fetchValuation fund.code = some fv →
        fv.isTradingDay = false) →
      updateAllValuations watchlist fetchValuation fetchQuotes now =
        ⟨watchlist, none, false⟩ := by
  intro watchlist fetchValuation fetchQuotes now hne h
  have hmap := batchExecute_as_map watchlist (fun fund => fetchValuation fund.code)
    MAX_CONCURRENT_REQUESTS (by decide)
  have hany : (watchlist.map (fun fund => fetchValuation fund.code)).any
      (fun v => match v with | some fv => fv.isTradingDay | none => false) = false := by
    rw [List.any_eq_false]
    intro v hvm
    rcases List.mem_map.mp hvm with ⟨fund, hf, rfl⟩
    cases hv : fetchValuation fund.code with
    | none => simp [hv]
    | some fv => simp [hv, h fund hf fv hv]
  simp only [updateAllValuations, hmap, hany, if_neg hne]
  simp

/-- Witness for C6: a one-fund watchlist whose primary fetch fails. -/
theorem C6_skip_when_not_trading_witness :
    updateAllValuations [⟨"000001", "f", 1, "d", 1, 0, "t", none, []⟩]
      (fun _ => none) (fun _ => []) "now" =
      ⟨[⟨"000001", "f", 1, "d", 1, 0, "t", none, []⟩], none, false⟩ :=
  C6_skip_when_not_trading [⟨"000001", "f", 1, "d", 1, 0, "t", none, []⟩]
    (fun _ => none) (fun _ => []) "now" (by simp)
    (fun _ _ fv hfv => Option.noConfusion hfv)

/-- The per-fund merge is the identity when the fund has no primary
valuation and no quotes were obtained. -/
theorem mergeFund_none_noQuotes (quoteMap : String → Option StockQuote)
    (now : String) (fund : Fund) :
    mergeFund quoteMap false now fund none = fund := rfl

/-- C7: in a cycle whose quote fetch yields the empty quote set, every fund
whose primary valuation is absent appears in the returned set exactly as it
was in the input set (all fields unchanged). -/
theorem C7_stale_retention :
    ∀ (watchlist : List Fund) (fetchValuation : String → Option FundValuation)
      (fetchQuotes : List String → List StockQuote) (now : String) (i : Nat)
      (hi : i < watchlist.length),
      fetchQuotes (collectStockCodes watchlist) = [] →
      fetchValuation watchlist[i].code = none →
      (updateAllValuations watchlist fetchValuation fetchQuotes now).returned[i]? =
        some watchlist[i] := by
  intro watchlist fetchValuation fetchQuotes now i hi hq hv
  have hne : watchlist ≠ [] := by
    intro h0
    rw [h0] at hi
    exact absurd hi (by simp)
  have hmap := batchExecute_as_map watchlist (fun fund => fetchValuation fund.code)
    MAX_CONCURRENT_REQUESTS (by decide)
  simp only [updateAllValuations, hmap, if_neg hne, hq]
  split
  · next _ =>
    simp only [List.length_nil, Nat.lt_irrefl, decide_False]
    rw [List.zipWith_map_right, List.zipWith_same, List.getElem?_map,
      List.getElem?_eq_getElem hi, Option.map_some']
    simp only [hv, mergeFund_none_noQuotes]
  · next _ =>
    rw [List.getElem?_eq_getElem hi]

/-- Witness for C7: a two-fund watchlist where the second fund's primary
valuation signals a trading session but the first fund's fetch fails and
the quote fetch returns nothing; the first fund comes back unchanged. -/
theorem C7_stale_retention_witness :
    (updateAllValuations
      [⟨"000001", "f", 1, "d", 1, 0, "t", none, [⟨"sh600000", "s", 10, 0, 0⟩]⟩,
       ⟨"000002", "g", 2, "d", 2, 0, "t", none, []⟩]
      (fun code => if code = "000002" then
        some ⟨2, "d2", (21 : ℚ) / 10, 5, "t2", false, true⟩ else none)
      (fun _ => []) "now").returned[0]? =
      some ⟨"000001", "f", 1, "d", 1, 0, "t", none, [⟨"sh600000", "s", 10, 0, 0⟩]⟩ :=
  C7_stale_retention
    [⟨"000001", "f", 1, "d", 1, 0, "t", none, [⟨"sh600000", "s", 10, 0, 0⟩]⟩,
     ⟨"000002", "g", 2, "d", 2, 0, "t", none, []⟩]
    (fun code => if code = "000002" then
      some ⟨2, "d2", (21 : ℚ) / 10, 5, "t2", false, true⟩ else none)
    (fun _ => []) "now" 0 (by decide) rfl (by decide)

/-- Behaviour of the retry loop when every attempt fails with a retryable
error: the whole budget is walked and the loop ends with the wrapped
terminal error, having slept the backoff delays for retry counts
`r+1, …, maxRetries`. -/
theorem withRetryAux_all_retryable {T : Type} (config : RetryConfig)
    (fn : Nat → Except RawError T) (context : String) (err : Nat → RawError)
    (hfn : ∀ k, fn k = .error (err k))
    (hret : ∀ k, (normalizeError (err k)).retryable = true) :
    ∀ n r : Nat, r + n = config.maxRetries →
      withRetryAux config fn context (n + 1) r =
        some ⟨.error (wrappedRetryError context config.maxRetries
                (normalizeError (err config.maxRetries))),
              config.maxRetries + 1,
              (List.range' (r + 1) n).map (calculateDelay config),
              [(normalizeError (err config.maxRetries), config.maxRetries)]⟩ := by
  intro n
  induction n with
  | zero =>
    intro r hr
    have hr0 : r = config.maxRetries := by omega
    subst hr0
    simp [withRetryAux, hfn, hret, Nat.lt_succ_self]
  | succ n ih =>
    intro r hr
    have hlt : ¬ (config.maxRetries < r + 1) := by omega
    have ih' := ih (r + 1) (by omega)
    rw [withRetryAux.eq_def]
    simp only [hfn, hret, Bool.not_true, Bool.false_eq_true, if_false,
      if_neg hlt, ih']
    simp [List.range']

/-- C2: `withRetry` fails immediately, with no delay and no further
attempts, once an attempt fails with a non-retryable classified error; when
every attempt fails retryably it makes `maxRetries + 1` attempts, sleeping
the backoff delays for retry counts `1..maxRetries`, and fails with the
wrapped error carrying the context and the retry count; and with
`maxRetries = 0` exactly one attempt is made and no delay is slept. -/
theorem C2_withRetry_policy :
    (∀ (T : Type) (config : RetryConfig) (fn : Nat → Except RawError T)
       (context : String) (e : RawError),
      fn 0 = .error e → (normalizeError e).retryable = false →
      withRetry config fn context =
        some ⟨.error (normalizeError e), 1, [], [(normalizeError e, 0)]⟩) ∧
    (∀ (T : Type) (config : RetryConfig) (fn : Nat → Except RawError T)
       (context : String) (err : Nat → RawError),
      (∀ k, fn k = .error (err k)) →
      (∀ k, (normalizeError (err k)).retryable = true) →
      withRetry config fn context =
        some ⟨.error (wrappedRetryError context config.maxRetries
                (normalizeError (err config.maxRetries))),
              config.maxRetries + 1,
              (List.range' 1 config.maxRetries).map (calculateDelay config),
              [(normalizeError (err config.maxRetries), config.maxRetries)]⟩) ∧
    (∀ (T : Type) (config : RetryConfig) (fn : Nat → Except RawError T)
       (context : String),
      config.maxRetries = 0 →
      ∃ o, withRetry config fn context = some o ∧
        o.attempts = 1 ∧ o.delays = []) := by
  refine ⟨?_, ?_, ?_⟩
  · intro T config fn context e hfn hret
    simp [withRetry, withRetryAux, hfn, hret]
  · intro T config fn context err hfn hret
    have h := withRetryAux_all_retryable config fn context err hfn hret
      config.maxRetries 0 (by omega)
    simpa [withRetry] using h
  · intro T config fn context h0
    cases hf : fn 0 with
    | ok t =>
      exact ⟨⟨.ok t, 1, [], []⟩, by simp [withRetry, withRetryAux, hf, h0], rfl, rfl⟩
    | error e =>
      by_cases hr : (normalizeError e).retryable
      · exact ⟨⟨.error (wrappedRetryError context 0 (normalizeError e)), 1, [],
          [(normalizeError e, 0)]⟩,
          by simp [withRetry, withRetryAux, hf, hr, h0], rfl, rfl⟩
      · exact ⟨⟨.error (normalizeError e), 1, [], [(normalizeError e, 0)]⟩,
          by simp [withRetry, withRetryAux, hf, hr, h0], rfl, rfl⟩

/-- Witness for C2: a non-retryable parse failure stops after one attempt;
always-retryable timeouts on the default configuration make 4 attempts and
sleep 1000, 2000, 4000 ms; `maxRetries = 0` makes one attempt. -/
theorem C2_withRetry_policy_witness :
    withRetry DEFAULT_RETRY_CONFIG
        (fun _ => (Except.error (RawError.plain "bad json") : Except RawError Nat))
        "op" =
      some ⟨.error (normalizeError (RawError.plain "bad json")), 1, [],
        [(normalizeError (RawError.plain "bad json"), 0)]⟩ ∧
    withRetry DEFAULT_RETRY_CONFIG
        (fun _ => (Except.error (RawError.plain "timeout") : Except RawError Nat))
        "op" =
      some ⟨.error (wrappedRetryError "op" DEFAULT_RETRY_CONFIG.maxRetries
          (normalizeError (RawError.plain "timeout"))),
        DEFAULT_RETRY_CONFIG.maxRetries + 1,
        (List.range' 1 DEFAULT_RETRY_CONFIG.maxRetries).map
          (calculateDelay DEFAULT_RETRY_CONFIG),
        [(normalizeError (RawError.plain "timeout"),
          DEFAULT_RETRY_CONFIG.maxRetries)]⟩ ∧
    (List.range' 1 DEFAULT_RETRY_CONFIG.maxRetries).map
      (calculateDelay DEFAULT_RETRY_CONFIG) = [1000, 2000, 4000] ∧
    (∃ o, withRetry ⟨0, 1000, 10000, 2⟩
        (fun _ => (Except.error (RawError.plain "timeout") : Except RawError Nat))
        "op" = some o ∧
      o.attempts = 1 ∧ o.delays = []) :=
  ⟨C2_withRetry_policy.1 Nat DEFAULT_RETRY_CONFIG
     (fun _ => Except.error (RawError.plain "bad json")) "op"
     (RawError.plain "bad json") rfl (by decide),
   C2_withRetry_policy.2.1 Nat DEFAULT_RETRY_CONFIG
     (fun _ => Except.error (RawError.plain "timeout")) "op"
     (fun _ => RawError.plain "timeout") (fun _ => rfl)
     (fun _ => (by decide :
       (normalizeError (RawError.plain "timeout")).retryable = true)),
   by decide,
   C2_withRetry_policy.2.2 Nat ⟨0, 1000, 10000, 2⟩
     (fun _ => Except.error (RawError.plain "timeout")) "op" rfl⟩

/-- The effects emitted by a run of consecutively failing cycles: retries
are armed while the counter stays below the budget, then exactly one
terminal error is sent and the chain stops. -/
theorem failureChain_spec (config : SchedulerConfig) (msg : String) :
    ∀ (fuel : Nat) (status : SchedulerStatus),
      status.consecutiveErrors < config.maxRetries →
      config.maxRetries - status.consecutiveErrors ≤ fuel →
      (failureChain config msg fuel status).2 =
        List.replicate (config.maxRetries - status.consecutiveErrors - 1)
          (.scheduleRetry config.retryDelay) ++
          [.sendError (terminalErrorMessage msg)] ∧
      (failureChain config msg fuel status).1.consecutiveErrors =
        config.maxRetries := by
  intro fuel
  induction fuel with
  | zero =>
    intro status h1 h2
    omega
  | succ fuel ih =>
    intro status h1 h2
    by_cases hlt : status.consecutiveErrors + 1 < config.maxRetries
    · have heq : handleUpdateError config status msg =
          ({status with
              lastError := some msg
              consecutiveErrors := status.consecutiveErrors + 1},
           .scheduleRetry config.retryDelay) := by
        simp [handleUpdateError, hlt]
      have ih' := ih
        {status with
          lastError := some msg
          consecutiveErrors := status.consecutiveErrors + 1}
        (by simpa using hlt) (by simp; omega)
      have hproj : ({status with
          lastError := some msg
          consecutiveErrors := status.consecutiveErrors + 1} :
          SchedulerStatus).consecutiveErrors = status.consecutiveErrors + 1 := rfl
      rw [hproj] at ih'
      simp only [failureChain, heq]
      refine ⟨?_, ih'.2⟩
      rw [ih'.1]
      have hrep : config.maxRetries - status.consecutiveErrors - 1 =
          (config.maxRetries - (status.consecutiveErrors + 1) - 1) + 1 := by
        omega
      simp only [hrep, List.replicate_succ, List.cons_append]
    · have heq : handleUpdateError config status msg =
          ({status with
              lastError := some msg
              consecutiveErrors := status.consecutiveErrors + 1},
           .sendError (terminalErrorMessage msg)) := by
        simp [handleUpdateError, hlt]
      simp only [failureChain, heq]
      have hrep : config.maxRetries - status.consecutiveErrors - 1 = 0 := by omega
      refine ⟨by simp [hrep],
        by exact (by omega : status.consecutiveErrors + 1 = config.maxRetries)⟩

/-- C5: a failing cycle increments `consecutiveErrors` and records the
message; while the incremented counter is still below `maxRetries` a
one-shot retry is armed after `retryDelay`; once it reaches `maxRetries`
the chain emits a single terminal error and arms no further retry; and a
successful cycle resets `consecutiveErrors` to 0 and records
`lastUpdateTime`. -/
theorem C5_scheduler_retry_policy :
    (∀ (config : SchedulerConfig) (status : SchedulerStatus) (msg : String),
      (handleUpdateError config status msg).1.consecutiveErrors =
          status.consecutiveErrors + 1 ∧
      (handleUpdateError config status msg).1.lastError = some msg) ∧
    (∀ (config : SchedulerConfig) (status : SchedulerStatus) (msg : String),
      status.consecutiveErrors + 1 < config.maxRetries →
      (handleUpdateError config status msg).2 =
        .scheduleRetry config.retryDelay) ∧
    (∀ (config : SchedulerConfig) (status : SchedulerStatus) (msg : String),
      config.maxRetries ≤ status.consecutiveErrors + 1 →
      (handleUpdateError config status msg).2 =
        .sendError (terminalErrorMessage msg)) ∧
    (∀ (config : SchedulerConfig) (status : SchedulerStatus) (msg : String)
       (fuel : Nat),
      status.consecutiveErrors = 0 → 0 < config.maxRetries →
      config.maxRetries ≤ fuel →
      (failureChain config msg fuel status).2 =
        List.replicate (config.maxRetries - 1)
          (.scheduleRetry config.retryDelay) ++
          [.sendError (terminalErrorMessage msg)] ∧
      (failureChain config msg fuel status).1.consecutiveErrors =
        config.maxRetries) ∧
    (∀ (config : SchedulerConfig) (status : SchedulerStatus)
       (updatedFunds : List Fund) (now : String),
      executeUpdateStep config status (.ok updatedFunds) now =
        ({status with
            lastUpdateTime := some now
            lastError := none
            consecutiveErrors := 0},
         .sendValuationUpdate updatedFunds)) := by
  refine ⟨?_, ?_, ?_, ?_, fun config status updatedFunds now => rfl⟩
  · intro config status msg
    by_cases h : status.consecutiveErrors + 1 < config.maxRetries <;>
      simp [handleUpdateError, h]
  · intro config status msg h
    simp [handleUpdateError, h]
  · intro config status msg h
    have h' : ¬ (status.consecutiveErrors + 1 < config.maxRetries) := by omega
    simp [handleUpdateError, h']
  · intro config status msg fuel hc0 hm hf
    have h := failureChain_spec config msg fuel status (by omega) (by omega)
    rw [hc0] at h
    exact h

/-- Witness for C5 on the default scheduler configuration: a first failure
from a clean status arms a retry; a third consecutive failure sends the
terminal error; a full failing chain emits two retries then one terminal
error; success resets the counter. -/
theorem C5_scheduler_retry_policy_witness :
    ((handleUpdateError DEFAULT_SCHEDULER_CONFIG ⟨true, none, none, 0⟩
        "x").1.consecutiveErrors = 1 ∧
      (handleUpdateError DEFAULT_SCHEDULER_CONFIG ⟨true, none, none, 0⟩
        "x").1.lastError = some "x") ∧
    (handleUpdateError DEFAULT_SCHEDULER_CONFIG ⟨true, none, none, 0⟩ "x").2 =
      .scheduleRetry 2000 ∧
    (handleUpdateError DEFAULT_SCHEDULER_CONFIG ⟨true, none, some "x", 2⟩ "x").2 =
      .sendError (terminalErrorMessage "x") ∧
    ((failureChain DEFAULT_SCHEDULER_CONFIG "x" 3 ⟨true, none, none, 0⟩).2 =
        [.scheduleRetry 2000, .scheduleRetry 2000,
         .sendError (terminalErrorMessage "x")] ∧
      (failureChain DEFAULT_SCHEDULER_CONFIG "x" 3
        ⟨true, none, none, 0⟩).1.consecutiveErrors = 3) ∧
    executeUpdateStep DEFAULT_SCHEDULER_CONFIG ⟨true, none, some "x", 5⟩
        (.ok []) "now" =
      (⟨true, some "now", none, 0⟩, .sendValuationUpdate []) :=
  ⟨C5_scheduler_retry_policy.1 DEFAULT_SCHEDULER_CONFIG ⟨true, none, none, 0⟩ "x",
   C5_scheduler_retry_policy.2.1 DEFAULT_SCHEDULER_CONFIG ⟨true, none, none, 0⟩
     "x" (by decide),
   C5_scheduler_retry_policy.2.2.1 DEFAULT_SCHEDULER_CONFIG ⟨true, none, some "x", 2⟩
     "x" (by decide),
   C5_scheduler_retry_policy.2.2.2.1 DEFAULT_SCHEDULER_CONFIG ⟨true, none, none, 0⟩
     "x" 3 rfl (by decide) (by decide),
   C5_scheduler_retry_policy.2.2.2.2 DEFAULT_SCHEDULER_CONFIG ⟨true, none, some "x", 5⟩
     [] "now"⟩

end FundEye
